import Mathlib

/-!
Verification development for the IMEI warehouse ingestion pipeline
(`app/services/csv_service.py`, `app/services/consultar_imei.py`,
`app/services/cluster_service.py`, `app/routes/imei.py`).

The Python data is dictionary-shaped, so we first build a small model of
Python `dict` semantics: an insertion-ordered association list where
updating an existing key keeps its position and inserting a new key
appends it at the end.  `PyVal` models the JSON-like values the pipeline
passes around (strings, `None`, nested dicts, lists).
-/

namespace Warehouse

/-- A Python-style insertion-ordered dictionary with string keys. -/
abbrev Dict (α : Type) : Type := List (String × α)

/-- `d.get(k)`: the value at key `k` (first occurrence), if present. -/
def dget {α : Type} (d : Dict α) (k : String) : Option α :=
  match d with
  | [] => none
  | (k', v) :: rest => if k' = k then some v else dget rest k

/-- `k in d`: key membership. -/
def dmem {α : Type} (d : Dict α) (k : String) : Bool :=
  match d with
  | [] => false
  | (k', _) :: rest => k' = k || dmem rest k

/-- `d[k] = v`: update an existing key in place (keeping its position) or
append a fresh key at the end — Python dict assignment semantics. -/
def dinsert {α : Type} (d : Dict α) (k : String) (v : α) : Dict α :=
  match d with
  | [] => [(k, v)]
  | (k', v') :: rest =>
      if k' = k then (k', v) :: rest else (k', v') :: dinsert rest k v

/-- `{**a, **b}`: start from `a` and assign every pair of `b` in order. -/
def dmerge {α : Type} (a b : Dict α) : Dict α :=
  b.foldl (fun acc kv => dinsert acc kv.1 kv.2) a

/-- Build a dict from a pair list (`dict(zip(keys, values))` semantics:
later duplicates of a key overwrite the earlier value). -/
def dictOfPairs {α : Type} (l : List (String × α)) : Dict α :=
  dmerge [] l

/-- Lookup of the LAST occurrence of a key in a raw pair list; this is
what `dict(...)`-style overwriting keeps. -/
def dgetLast {α : Type} (l : List (String × α)) (k : String) : Option α :=
  dget l.reverse k

/-- Values passed around by the pipeline: strings, Python `None`,
nested dicts and lists (the shapes JSON responses take). -/
inductive PyVal : Type where
  | vs : String → PyVal
  | vnone : PyVal
  | vdict : List (String × PyVal) → PyVal
  | vlist : List PyVal → PyVal
deriving Repr

/-- Python truthiness for the values we model: `None`, `""`, `{}` and
`[]` are falsy. -/
def truthy : PyVal → Bool
  | .vs s => s ≠ ""
  | .vnone => false
  | .vdict d => !d.isEmpty
  | .vlist l => !l.isEmpty

/-- Truthiness of `d.get(k)` (an absent key behaves like `None`). -/
def truthyOpt : Option PyVal → Bool
  | none => false
  | some v => truthy v

/-- `a or b` on optional values, as Python evaluates fallback chains. -/
def pyOr (a b : Option PyVal) : Option PyVal :=
  if truthyOpt a then a else b

/-- Python `str.strip()` (whitespace at both ends), structurally on the
character list so that concrete runs reduce in the kernel. -/
def pyStrip (s : String) : String :=
  String.mk (((s.data.dropWhile Char.isWhitespace).reverse.dropWhile Char.isWhitespace).reverse)

/-- Python `str.upper()`; like `String.toUpper` this maps ASCII letters
only, which suffices for the inputs we reason about. -/
def pyUpper (s : String) : String := String.mk (s.data.map Char.toUpper)

/-- Python `str.lower()` (ASCII). -/
def pyLower (s : String) : String := String.mk (s.data.map Char.toLower)

/-- Python slicing `s[:n]`. -/
def takeStr (s : String) (n : Nat) : String := String.mk (s.data.take n)

/-! ### `CsvService.process_csv_stream` (`app/services/csv_service.py`) -/

/-- The alias table of `process_csv_stream` applied as
`column_mapping.get(clean_key, clean_key.lower())`: known upper-case
variants map to canonical lower-case field names, anything else passes
through lower-cased. -/
def column_mapping (clean_key : String) : String :=
  if clean_key = "IMEI" then "imei"
  else if clean_key = "MODELO" then "modelo"
  else if clean_key = "STATUS" then "status"
  else if clean_key = "OBS" then "observacao"
  else if clean_key = "OBSERVAÇÃO" then "observacao"
  else if clean_key = "OBSERVACAO" then "observacao"
  else if clean_key = "FABRICANTE" then "fabricante"
  else if clean_key = "TIPO ATIVO" then "tipo_ativo"
  else if clean_key = "EMPRESA" then "empresa"
  else if clean_key = "NUMERO CHAMADO" then "numero_chamado"
  else if clean_key = "CHAMADO" then "numero_chamado"
  else if clean_key = "LOCALIZAÇÃO" then "localizacao"
  else if clean_key = "LOCAL" then "localizacao"
  else pyLower clean_key

/-- `csv.DictReader` materialises each data line as
`dict(zip(fieldnames, values))`: a short line leaves the trailing keys
with `None` (which the cleaning loop turns into `''`, modelled by
padding with `""`), extra values land under the non-string `restkey`
and are dropped by the cleaning loop (modelled by `zip` truncation), and
a duplicated field name keeps only the last value. -/
def readerRow (fieldnames : List String) (values : List String) : Dict String :=
  dictOfPairs (fieldnames.zip (values ++ List.replicate (fieldnames.length - values.length) ""))

/-- The cleaning loop of `process_csv_stream` (lines 184–197): each key
is trimmed, upper-cased and passed through `column_mapping`; each value
is trimmed; assignments into `cleaned_row` use dict-update order. -/
def cleaned_row (row : Dict String) : Dict String :=
  row.foldl (fun acc kv => dinsert acc (column_mapping (pyUpper (pyStrip kv.1))) (pyStrip kv.2)) []

/-- `cleaned_row.get(field)` lifted to a Python value (`None` when the
key is absent). -/
def optVal (o : Option String) : PyVal :=
  match o with
  | some s => .vs s
  | none => .vnone

/-- The `imei_data` dict built for each retained row
(`process_csv_stream` lines 216–227); `dados_brutos` keeps the whole
cleaned row. -/
def imei_data_of (cleaned : Dict String) (imei status : String) : Dict PyVal :=
  [("imei", .vs imei),
   ("modelo", optVal (dget cleaned "modelo")),
   ("status", .vs status),
   ("observacao", optVal (dget cleaned "observacao")),
   ("fabricante", optVal (dget cleaned "fabricante")),
   ("tipo_ativo", optVal (dget cleaned "tipo_ativo")),
   ("empresa", optVal (dget cleaned "empresa")),
   ("numero_chamado", optVal (dget cleaned "numero_chamado")),
   ("localizacao", optVal (dget cleaned "localizacao")),
   ("dados_brutos", .vdict (cleaned.map (fun kv => (kv.1, PyVal.vs kv.2))))]

/-- The grouping map `imei_groups`, in insertion order. -/
abbrev Groups : Type := List (String × List (Dict PyVal))

/-- `imei_groups.setdefault(imei, []).append(data)` semantics. -/
def addToGroup (g : Groups) (imei : String) (data : Dict PyVal) : Groups :=
  match g with
  | [] => [(imei, [data])]
  | (k, rows) :: rest =>
      if k = imei then (k, rows ++ [data]) :: rest
      else (k, rows) :: addToGroup rest imei data

/-- `if not any(row.values()): continue` — the all-blank-row skip. -/
def allBlank (row : Dict String) : Bool :=
  row.all (fun kv => kv.2 = "")

/-- Lines 207–213: the row status, defaulting a blank mapped status
field to `'DESCONHECIDO'`. -/
def row_status (cleaned : Dict String) : String :=
  let status0 := pyStrip ((dget cleaned "status").getD "")
  if status0 = "" then "DESCONHECIDO" else status0

/-- One iteration of the row loop of `process_csv_stream` (lines
178–236): skip all-blank rows, clean, skip empty `imei`, default a blank
`status`, and append the built record to its group. -/
def processRow (fieldnames : List String) (groups : Groups) (values : List String) : Groups :=
  let row := readerRow fieldnames values
  if allBlank row then groups
  else
    let cleaned := cleaned_row row
    let imei := (dget cleaned "imei").getD ""
    if imei = "" then groups
    else
      addToGroup groups imei (imei_data_of cleaned imei (row_status cleaned))

/-- The distinguishable failures `process_csv_stream` raises as
`ValueError`s. -/
inductive CsvError : Type where
  | noHeaders : CsvError
  | emptyHeaders : CsvError
  | missingImei : List String → CsvError
  | noValidRecords : CsvError
deriving Repr, DecidableEq

/-- `CsvService.process_csv_stream`: input is the already-decoded parsed
stream — `fieldnames?` is `csv.DictReader.fieldnames` (`None` when the
stream is empty) and `rows` the parsed data lines.  Header names are
trimmed and upper-cased; the `IMEI` column is required; rows are grouped
by `imei`; zero groups is an error. -/
def process_csv_stream (fieldnames? : Option (List String)) (rows : List (List String)) :
    Except CsvError (Groups × List String) :=
  match fieldnames? with
  | none => .error .noHeaders
  | some raw =>
      let fieldnames := raw.map (fun n => pyUpper (pyStrip n))
      if fieldnames.isEmpty then .error .emptyHeaders
      else if !(fieldnames.contains "IMEI") then .error (.missingImei fieldnames)
      else
        let groups := rows.foldl (processRow raw) []
        if groups.isEmpty then .error .noValidRecords
        else .ok (groups, fieldnames)

/-! ### `ConsultaImeiService.consultar_imei` (`app/services/consultar_imei.py`) -/

/-- The HTTP response of the inventory grid endpoint as the service
reads it: a status code and the decoded JSON body. -/
structure HttpResp where
  status_code : Nat
  body : PyVal

/-- `item.get(k₁) or item.get(k₂) or …`: the first truthy value wins,
otherwise the last lookup's value (possibly falsy) is kept. -/
def getChain (item : Dict PyVal) (keys : List String) : Option PyVal :=
  match keys with
  | [] => none
  | [k] => dget item k
  | k :: rest => if truthyOpt (dget item k) then dget item k else getChain item rest

/-- A fallback chain as a dict value: an absent key reads as `None`. -/
def chainVal (item : Dict PyVal) (keys : List String) : PyVal :=
  (getChain item keys).getD .vnone

/-- `consultar_imei` (lines 84–144): any exception while authenticating
or querying is caught and becomes an `erro`-marker dict; a non-200
response or an empty `data` list also yields an `erro` dict; otherwise
the best-effort formatted fields plus the verbatim raw item
(`detalhes`, `dados_brutos`) and the full response
(`resposta_completa`).  `upstream` abstracts the network interaction:
`.error` is a raised exception, `.ok` the decoded response. -/
def consultar_imei (imei : String) (upstream : Except String HttpResp) : Dict PyVal :=
  match upstream with
  | .error e => [("imei", .vs imei), ("erro", .vs ("Erro ao processar consulta: " ++ e))]
  | .ok resp =>
      if resp.status_code ≠ 200 then
        [("imei", .vs imei),
         ("erro", .vs ("Erro na consulta (HTTP " ++ toString resp.status_code ++ ")"))]
      else
        match resp.body with
        | .vdict data =>
            match dget data "data" with
            | some (.vlist (.vdict item :: _)) =>
                [("imei", .vs imei),
                 ("imei2", chainVal item ["IMEI2", "Imei2", "imei2", "Imei 2", "IMEI 2"]),
                 ("serial", chainVal item ["Serial", "NumeroSerie", "NumeroSerial",
                    "numero_serie", "serial", "NroSerie", "NroSerial"]),
                 ("modelo", chainVal item ["Modelo", "modelo"]),
                 ("status", chainVal item ["Status", "status"]),
                 ("fabricante", chainVal item ["Fabrica", "fabrica", "marca"]),
                 ("tipo_ativo", chainVal item ["TipoAtivo", "tipoativo"]),
                 ("empresa", chainVal item ["Empresa", "empresa"]),
                 ("numero_chamado", chainVal item ["NumeroChamado", "numero_chamado"]),
                 ("data_inicio", chainVal item ["DataInicio", "data_inicio"]),
                 ("localizacao", chainVal item ["Organograma", "organograma", "vinculadoha"]),
                 ("detalhes", .vdict item),
                 ("dados_brutos", .vdict item),
                 ("resposta_completa", .vdict data)]
            | some (.vlist (_ :: _)) =>
                -- a non-dict first item makes `.get` raise, caught by the
                -- blanket handler
                [("imei", .vs imei),
                 ("erro", .vs "Erro ao processar consulta: AttributeError")]
            | _ => [("imei", .vs imei), ("erro", .vs "Nenhum dado encontrado para este IMEI")]
        | _ => [("imei", .vs imei), ("erro", .vs "Nenhum dado encontrado para este IMEI")]

/-! ### The reconciliation loop of `processar_csv`
(`app/routes/imei.py`, lines 350–388) -/

/-- The outcome of `imei_service.consultar_por_imei(imei)` as seen by
the loop: either the call raised an exception, or it returned a dict. -/
abbrev LookupOutcome : Type := Except String (Dict PyVal)

/-- Lines 354–357: the first row of the group is the local record,
falling back to a bare `{"imei": imei}`. -/
def dados_csv_of (imei : String) (registros : List (Dict PyVal)) : Dict PyVal :=
  match registros with
  | r :: _ => r
  | [] => [("imei", .vs imei)]

/-- One iteration of the merge loop (lines 359–388): an exception
annotates the local data with `erro_processamento`; an `erro` marker
annotates it with `erro_consulta`; otherwise the API response is the
base, the CSV fields override it (`{**resposta_api, **dados_csv}`), the
API's audit keys `dados_brutos` and `resposta_completa` are restored,
and a truthy CSV `status` prevails.  `restoreKey` is the guard of
lines 375–378: re-assert an API audit key after the merge when the API
response carries it. -/
def restoreKey (api : Dict PyVal) (key : String) (m : Dict PyVal) : Dict PyVal :=
  match dget api key with
  | some v => dinsert m key v
  | none => m

def reconcile (dados_csv : Dict PyVal) (lookup : LookupOutcome) : Dict PyVal :=
  match lookup with
  | .error msg => dinsert dados_csv "erro_processamento" (.vs msg)
  | .ok resp =>
      let resposta_api := if resp.isEmpty then ([] : Dict PyVal) else resp
      if dmem resposta_api "erro" then
        dinsert dados_csv "erro_consulta" ((dget resposta_api "erro").getD .vnone)
      else
        let m3 := restoreKey resposta_api "resposta_completa"
                    (restoreKey resposta_api "dados_brutos" (dmerge resposta_api dados_csv))
        if truthyOpt (dget dados_csv "status") then
          dinsert m3 "status" ((dget dados_csv "status").getD .vnone)
        else m3

/-- The whole reconciliation pass: one merged record per grouped id, in
group order; `lookup` abstracts `imei_service.consultar_por_imei`. -/
def reconcileGroups (groups : Groups) (lookup : String → LookupOutcome) : List (Dict PyVal) :=
  groups.map (fun g => reconcile (dados_csv_of g.1 g.2) (lookup g.1))

/-! ### `ClusterService.create_cluster` (`app/services/cluster_service.py`)
and the per-cluster table (`app/models/cluster.py`) -/

/-- Python `str(...)` as the pipeline applies it to field values.  The
textual rendering of structured values is abstracted (no code path we
verify depends on it). -/
def pyStr : PyVal → String
  | .vs s => s
  | .vnone => "None"
  | .vdict _ => "\x7bdict\x7d"
  | .vlist _ => "[list]"

/-- A row of the master `clusters` table (`ClusterDB`): `total_imeis`
has column default `0`. -/
structure MasterRow where
  id : String
  nome : String
  descricao : String
  total_imeis : Nat
deriving Repr, DecidableEq

/-- An element of the `imeis` argument of `create_cluster`
(`List[Union[str, Dict[str, Any]]]`). -/
inductive ImeiItem : Type where
  | str : String → ImeiItem
  | dict : Dict PyVal → ImeiItem

/-- `any(key in imei_item for key in [...])`. -/
def hasAnyKey (d : Dict PyVal) (ks : List String) : Bool :=
  ks.any (fun k => dmem d k)

/-- `imei_item.get('imei', '').strip()`: `some` of the trimmed string,
`none` when the stored value is not a string (`.strip()` raises, and the
per-item handler swallows the exception). -/
def strOfImeiKey (d : Dict PyVal) : Option String :=
  match dget d "imei" with
  | none => some ""
  | some (.vs s) => some (pyStrip s)
  | some _ => none

/-- The status fallback chain of the data-carrying dict branch
(`create_cluster` lines 68–101): the item's `status`, then
`dados_brutos['status']`, then `dados_brutos['STATUS']`, then
`'DESCONHECIDO'`; the result is stringified and stripped (the
`'DESCONHECID'` alternative is dead code since the chain is always
truthy). -/
def status_final_of (item : Dict PyVal) : String :=
  let s1 := dget item "status"
  let s2 := if truthyOpt s1 then s1 else
    match dget item "dados_brutos" with
    | some (.vdict db) => dget db "status"
    | _ => s1
  let s3 := if truthyOpt s2 then s2 else
    match dget item "dados_brutos" with
    | some (.vdict db) => dget db "STATUS"
    | _ => s2
  let s4 : PyVal := if truthyOpt s3 then s3.getD .vnone else .vs "DESCONHECIDO"
  if truthy s4 then pyStrip (pyStr s4) else "DESCONHECID"

/-- `imei_item.get(k, dados.get(k) if dados else None)`: the `dados`
fallback is used only when the key is absent from the item. -/
def getWithDados (item dados : Dict PyVal) (k : String) : PyVal :=
  (dget item k).getD (if dados.isEmpty then .vnone else (dget dados k).getD .vnone)

/-- The preparation loop body of `create_cluster` (lines 53–170): builds
the `imei_data` dict for one input item, or `none` when the item is
skipped (blank `imei`) or its processing raised (the handler prints and
continues).  `lookup` abstracts `self.imei_service.consultar_imei`
(total: it catches its own failures), `now` the `datetime.utcnow()`
timestamps. -/
def prepareItem (lookup : String → Dict PyVal) (now : String) (item : ImeiItem) :
    Option (Dict PyVal) :=
  match item with
  | .dict imei_item =>
      match strOfImeiKey imei_item with
      | none => none
      | some imei =>
          if imei = "" then none
          else if hasAnyKey imei_item ["modelo", "status", "observacao", "fabricante"] then
            some [("imei", .vs imei),
                  ("modelo", (dget imei_item "modelo").getD .vnone),
                  ("status", .vs (status_final_of imei_item)),
                  ("observacao", (dget imei_item "observacao").getD .vnone),
                  ("fabricante", (dget imei_item "fabricante").getD .vnone),
                  ("tipo_ativo", (dget imei_item "tipo_ativo").getD .vnone),
                  ("empresa", (dget imei_item "empresa").getD .vnone),
                  ("numero_chamado", (dget imei_item "numero_chamado").getD .vnone),
                  ("localizacao", (dget imei_item "localizacao").getD .vnone),
                  ("dados_brutos", (dget imei_item "dados_brutos").getD (.vdict imei_item)),
                  ("data_inclusao", .vs now),
                  ("data_atualizacao", .vs now)]
          else
            let dados := lookup imei
            let s1 := dget imei_item "status"
            let s2 := if truthyOpt s1 then s1
                      else if dados.isEmpty then none else dget dados "status"
            let s3 : PyVal := if truthyOpt s2 then s2.getD .vnone else .vs "DESCONHECIDO"
            some [("imei", .vs imei),
                  ("modelo", getWithDados imei_item dados "modelo"),
                  ("status", .vs (pyStrip (pyStr s3))),
                  ("observacao", (dget imei_item "observacao").getD .vnone),
                  ("fabricante", getWithDados imei_item dados "fabricante"),
                  ("tipo_ativo", getWithDados imei_item dados "tipo_ativo"),
                  ("empresa", getWithDados imei_item dados "empresa"),
                  ("numero_chamado", getWithDados imei_item dados "numero_chamado"),
                  ("localizacao", getWithDados imei_item dados "localizacao"),
                  ("dados_brutos", if dados.isEmpty then .vdict imei_item
                                   else .vdict (dmerge dados imei_item)),
                  ("data_inclusao", .vs now),
                  ("data_atualizacao", .vs now)]
  | .str s =>
      let imei := pyStrip s
      if imei = "" then none
      else
        let dados := lookup imei
        some [("imei", .vs imei),
              ("modelo", (dget dados "modelo").getD .vnone),
              ("status", (pyOr (dget dados "status") (some (.vs "DESCONHECIDO"))).getD .vnone),
              ("observacao", .vnone),
              ("fabricante", (dget dados "fabricante").getD .vnone),
              ("tipo_ativo", (dget dados "tipo_ativo").getD .vnone),
              ("empresa", (dget dados "empresa").getD .vnone),
              ("numero_chamado", (dget dados "numero_chamado").getD .vnone),
              ("localizacao", (dget dados "localizacao").getD .vnone),
              ("dados_brutos", .vdict dados),
              ("data_inclusao", .vs now),
              ("data_atualizacao", .vs now)]

/-- Failures the insert transaction can raise; the per-cluster table
(`create_cluster_table`) declares `imei` unique, so re-inserting an
`imei` violates the index. -/
inductive DbError : Type where
  | duplicateKey : String → DbError
deriving Repr, DecidableEq

/-- Lines 180–193 of the insert loop: `id` is absent from prepared
records (the `pop` is a no-op), a string `dados_brutos` would be decoded
back to structured form — in our value model every in-repo caller passes
it structured, so that guard is the identity — and a missing or falsy
`status` is replaced by `'DESCONHECIDO'` just before the insert. -/
def prepInsertRecord (r : Dict PyVal) : Dict PyVal :=
  if truthyOpt (dget r "status") then r else dinsert r "status" (.vs "DESCONHECIDO")

/-- The `imei` column value of a record: the per-cluster table stores
`imei` as a `String(36)` column and its unique index compares that
string (every record the preparation loop emits carries a string
`imei`). -/
def imeiOf (r : Dict PyVal) : Option String :=
  match dget r "imei" with
  | some (.vs s) => some s
  | _ => none

/-- The per-record insert loop inside the single `engine.begin()`
transaction (lines 176–211): each record is inserted in order into the
cluster's table; violating the unique `imei` index raises, which aborts
the loop (remaining records are not attempted). -/
def insertLoop (table : List (Dict PyVal)) (records : List (Dict PyVal)) :
    Except DbError (List (Dict PyVal)) :=
  match records with
  | [] => .ok table
  | r :: rest =>
      let r' := prepInsertRecord r
      if table.any (fun row => imeiOf row == imeiOf r') then
        .error (.duplicateKey ((imeiOf r').getD ""))
      else insertLoop (table ++ [r']) rest

/-- `ClusterService.create_cluster` (lines 21–228) as a state
transformer over the master table: the cluster metadata row (with
`total_imeis` at its column default `0`) is committed *before* any
record is inserted; the fresh per-cluster table starts empty; the
records are prepared (per-item failures skipped) and inserted inside one
transaction — whose failure rolls the table back and re-raises — and
only after a fully successful pass is `total_imeis` updated.  Returns
the outcome together with the final master table and the final
per-cluster table. -/
def create_cluster (masters0 : List MasterRow) (clusterId nome descricao now : String)
    (lookup : String → Dict PyVal) (imeis : List ImeiItem) :
    Except DbError MasterRow × (List MasterRow × List (Dict PyVal)) :=
  let master0 : MasterRow := ⟨clusterId, nome, descricao, 0⟩
  let masters1 := masters0 ++ [master0]
  let imeis_to_insert := imeis.filterMap (prepareItem lookup now)
  match insertLoop [] imeis_to_insert with
  | .error e => (.error e, (masters1, []))
  | .ok table =>
      let master1 : MasterRow := ⟨clusterId, nome, descricao, imeis_to_insert.length⟩
      (.ok master1,
       (masters1.map (fun m => if m.id = clusterId then master1 else m), table))

/-! ### `generate_qr_code` (`app/routes/imei.py`, lines 130–206) -/

/-- One entry of `data.get('imeis', [])` as the encoder reads it, via
`.get('modelo', 'Desconhecido')` and `.get('imei', '')`. -/
structure ImeiInfo where
  modelo : Option String
  imei : String
deriving Repr, DecidableEq

/-- The cluster summary the encoder receives. -/
structure QrInput where
  id : Option String
  nome : String
  data_criacao : Option String
  imeis : List ImeiInfo
deriving Repr, DecidableEq

/-- Lines 133–144: per-model buckets `(modelo, quantidade, imeis)` in
first-seen order; every occurrence bumps the count and appends the
sample id. -/
def bumpModelo (ms : List (String × Nat × List String)) (m imei : String) :
    List (String × Nat × List String) :=
  match ms with
  | [] => [(m, 1, [imei])]
  | (k, q, ids) :: rest =>
      if k = m then (k, q + 1, ids ++ [imei]) :: rest
      else (k, q, ids) :: bumpModelo rest m imei

def buildModelos (infos : List ImeiInfo) : List (String × Nat × List String) :=
  infos.foldl (fun acc info => bumpModelo acc (info.modelo.getD "Desconhecido") info.imei) []

/-- Line 148: keep at most 5 sample `imeis` per model. -/
def capModelos (ms : List (String × Nat × List String)) : List (String × Nat × List String) :=
  ms.map (fun b => (b.1, b.2.1, b.2.2.take 5))

def hexDigit (n : Nat) : Char :=
  if n < 10 then Char.ofNat (48 + n) else Char.ofNat (87 + (n % 16))

def hex4 (n : Nat) : String :=
  String.mk [hexDigit (n / 4096 % 16), hexDigit (n / 256 % 16), hexDigit (n / 16 % 16),
             hexDigit (n % 16)]

/-- `json.dumps` string escaping (`ensure_ascii=False`): quote,
backslash and control characters are escaped, everything else is kept
verbatim. -/
def jsonEscapeChar (c : Char) : String :=
  if c = '"' then "\\\""
  else if c = '\\' then "\\\\"
  else if c = '\n' then "\\n"
  else if c = '\r' then "\\r"
  else if c = '\t' then "\\t"
  else if c = '\x08' then "\\b"
  else if c = '\x0c' then "\\f"
  else if c.toNat < 32 then "\\u" ++ hex4 c.toNat
  else String.singleton c

def jsonStr (s : String) : String :=
  "\"" ++ String.join (s.toList.map jsonEscapeChar) ++ "\""

def jsonOptStr : Option String → String
  | none => "null"
  | some s => jsonStr s

/-- The `modelos` mapping serialized at full detail:
each bucket is `"modelo": \x7b"quantidade": n, "imeis": [...]\x7d`. -/
def jsonModelosFull (ms : List (String × Nat × List String)) : String :=
  "\x7b" ++ String.intercalate ","
    (ms.map (fun b => jsonStr b.1 ++ ":\x7b\"quantidade\":" ++ toString b.2.1 ++
      ",\"imeis\":[" ++ String.intercalate "," (b.2.2.map jsonStr) ++ "]\x7d")) ++ "\x7d"

/-- The `modelos` mapping after `pop('imeis')`: only the counts. -/
def jsonModelosStripped (ms : List (String × Nat × List String)) : String :=
  "\x7b" ++ String.intercalate ","
    (ms.map (fun b => jsonStr b.1 ++ ":\x7b\"quantidade\":" ++ toString b.2.1 ++ "\x7d")) ++ "\x7d"

/-- `json.dumps(limited_data, ensure_ascii=False, separators=(',', ':'))`
for the dict built at lines 151–158, with the optional `mensagem`
appended last (line 170 assigns it after all other keys). -/
def serializeLimited (d : QrInput) (modelosJson : String) (totalModelos : Nat)
    (mensagem : Option String) : String :=
  "\x7b\"id\":" ++ jsonOptStr d.id ++
  ",\"nome\":" ++ jsonStr (takeStr d.nome 50) ++
  ",\"total_imeis\":" ++ toString d.imeis.length ++
  ",\"data_criacao\":" ++ jsonOptStr d.data_criacao ++
  ",\"modelos\":" ++ modelosJson ++
  ",\"total_modelos\":" ++ toString totalModelos ++
  (match mensagem with
   | none => ""
   | some m => ",\"mensagem\":" ++ jsonStr m) ++ "\x7d"

/-- The byte ceiling of the high-detail tier: 2,953 bytes, the capacity
of a version-40 QR symbol at error-correction level L (line 164). -/
def QR_BYTE_LIMIT : Nat := 2953

/-- The truncation notice appended when detail is stripped (line 170). -/
def TRUNCATION_NOTICE : String := "Lista de IMEIs muito grande, exibindo apenas contagem"

/-- The data-shaping step of `generate_qr_code`, with the byte budget as
a parameter (the source fixes it to `QR_BYTE_LIMIT`): serialize the
capped summary compactly; if its UTF-8 byte size exceeds the budget,
strip the per-model sample lists, append the truncation notice and
re-serialize. -/
def generate_qr_payload_budget (budget : Nat) (data : QrInput) : String :=
  let modelos := capModelos (buildModelos data.imeis)
  let full := serializeLimited data (jsonModelosFull modelos) modelos.length none
  if full.utf8ByteSize > budget then
    serializeLimited data (jsonModelosStripped modelos) modelos.length (some TRUNCATION_NOTICE)
  else full

/-- The payload `generate_qr_code` feeds the symbol encoder. -/
def generate_qr_payload (data : QrInput) : String :=
  generate_qr_payload_budget QR_BYTE_LIMIT data

/-- `generate_qr_code` with its blanket exception handler: an internal
failure (abstracted as `.error msg`) still yields the non-empty fallback
payload `"Erro: " ++ first 100 characters of the message`
(lines 192–205). -/
def generate_qr_code_payload (input : Except String QrInput) : String :=
  match input with
  | .error e => "Erro: " ++ takeStr e 100
  | .ok d => generate_qr_payload d

/-! ### Concrete fixtures used by individual claims -/

/-- The grouped record `process_csv_stream` builds for the row
`IMEI=123, MODELO=` (a present but blank model). -/
def c1_localRecord : Dict PyVal :=
  [("imei", .vs "123"), ("modelo", .vs ""), ("status", .vs "DESCONHECIDO"),
   ("observacao", .vnone), ("fabricante", .vnone), ("tipo_ativo", .vnone),
   ("empresa", .vnone), ("numero_chamado", .vnone), ("localizacao", .vnone),
   ("dados_brutos", .vdict [("imei", .vs "123"), ("modelo", .vs "")])]

/-- A successful lookup response carrying a non-empty model. -/
def c1_apiResp : Dict PyVal := [("modelo", .vs "Alpha")]

/-- A local record whose raw audit payload holds an extra column `a`. -/
def c3_local_a : Dict PyVal :=
  [("imei", .vs "1"), ("status", .vs "ATIVO"),
   ("dados_brutos", .vdict [("imei", .vs "1"), ("extra", .vs "a")])]

/-- Identical to `c3_local_a` except the extra column reads `b`. -/
def c3_local_b : Dict PyVal :=
  [("imei", .vs "1"), ("status", .vs "ATIVO"),
   ("dados_brutos", .vdict [("imei", .vs "1"), ("extra", .vs "b")])]

/-- A successful lookup response with both audit keys populated. -/
def c3_resp : Dict PyVal :=
  [("modelo", .vs "M"), ("dados_brutos", .vdict [("Modelo", .vs "M")]),
   ("resposta_completa", .vdict [("data", .vlist [])])]

/-- The `extra` column as recoverable from a record's raw audit key. -/
def c3_extraOf (d : Dict PyVal) : Option String :=
  match dget d "dados_brutos" with
  | some (.vdict db) =>
      match dget db "extra" with
      | some (.vs s) => some s
      | _ => none
  | _ => none

/-- Records of a grouping map all carry a non-empty string status. -/
def groupStatusOk (g : Groups) : Prop :=
  ∀ p ∈ g, ∀ r ∈ p.2, ∃ s, dget r "status" = some (.vs s) ∧ s ≠ ""

/-- `ys` is `xs` with all-blank rows inserted at arbitrary positions. -/
inductive BlankInsertion : List (List String) → List (List String) → Prop where
  | nil : BlankInsertion [] []
  | keep (r : List String) {xs ys : List (List String)} :
      BlankInsertion xs ys → BlankInsertion (r :: xs) (r :: ys)
  | blank (b : List String) (hb : ∀ v ∈ b, pyStrip v = "") {xs ys : List (List String)} :
      BlankInsertion xs ys → BlankInsertion xs (b :: ys)

/-- A two-model, ten-device summary whose full serialization overflows a
200-byte budget while its stripped form fits it. -/
def c8data : QrInput :=
  ⟨some "1", "c", some "d",
   [⟨some "A", "111111111111111"⟩, ⟨some "A", "222222222222222"⟩,
    ⟨some "A", "333333333333333"⟩, ⟨some "A", "444444444444444"⟩,
    ⟨some "A", "555555555555555"⟩,
    ⟨some "B", "666666666666666"⟩, ⟨some "B", "777777777777777"⟩,
    ⟨some "B", "888888888888888"⟩, ⟨some "B", "999999999999999"⟩,
    ⟨some "B", "000000000000000"⟩]⟩

/-! ### Dictionary and pipeline lemmas -/

theorem dget_dinsert_self {α : Type} (d : Dict α) (k : String) (v : α) :
    dget (dinsert d k v) k = some v := by
  induction d with
  | nil => simp [dinsert, dget]
  | cons kv rest ih =>
      by_cases h : kv.1 = k
      · simp [dinsert, dget, h]
      · simp [dinsert, dget, h, ih]

theorem dget_dinsert_ne {α : Type} (d : Dict α) (k k' : String) (v : α)
    (hne : k ≠ k') : dget (dinsert d k v) k' = dget d k' := by
  induction d with
  | nil => simp [dinsert, dget, hne]
  | cons kv rest ih =>
      by_cases h : kv.1 = k
      · subst h
        simp [dinsert, dget, hne]
      · simp [dinsert, dget, h, ih]

theorem dget_append {α : Type} (a b : List (String × α)) (k : String) :
    dget (a ++ b) k = ((dget a k).or (dget b k)) := by
  induction a with
  | nil => simp [dget]
  | cons kv rest ih =>
      by_cases h : kv.1 = k
      · simp [dget, h]
      · simp [dget, h, ih]

/-- Characterisation of `{**a, **b}`: a key maps to its last value in `b`
when `b` mentions it, else to its value in `a`. -/
theorem dget_dmerge {α : Type} (a b : Dict α) (k : String) :
    dget (dmerge a b) k = ((dgetLast b k).or (dget a k)) := by
  induction b generalizing a with
  | nil => simp [dmerge, dgetLast, dget]
  | cons kv rest ih =>
      show dget (dmerge (dinsert a kv.1 kv.2) rest) k = _
      rw [ih]
      unfold dgetLast
      rw [List.reverse_cons, dget_append]
      by_cases h : kv.1 = k
      · subst h
        simp [dget, dget_dinsert_self]
        cases dget rest.reverse kv.1 <;> simp
      · simp [dget, h, dget_dinsert_ne a kv.1 k kv.2 h]

theorem dget_eq_none_of_not_mem_keys {α : Type} (l : List (String × α)) (k : String)
    (h : k ∉ l.map Prod.fst) : dget l k = none := by
  induction l with
  | nil => rfl
  | cons kv rest ih =>
      rw [List.map_cons, List.mem_cons] at h
      push_neg at h
      unfold dget
      rw [if_neg (fun hh => h.1 hh.symm)]
      exact ih h.2

/-- On a dict whose keys are pairwise distinct, the last and the first
occurrence of a key coincide. -/
theorem dgetLast_eq_dget {α : Type} (l : List (String × α))
    (h : (l.map Prod.fst).Nodup) (k : String) : dgetLast l k = dget l k := by
  induction l with
  | nil => rfl
  | cons kv rest ih =>
      rw [List.map_cons, List.nodup_cons] at h
      by_cases hk : kv.1 = k
      · subst hk
        have hnone : dget rest.reverse kv.1 = none := by
          apply dget_eq_none_of_not_mem_keys
          rw [List.map_reverse, List.mem_reverse]
          exact h.1
        unfold dgetLast
        rw [List.reverse_cons, dget_append, hnone]
        simp [dget]
      · have h2 : dget ([kv] : List (String × α)) k = none := by simp [dget, hk]
        have h3 := ih h.2
        unfold dgetLast at h3 ⊢
        rw [List.reverse_cons, dget_append, h2, Option.or_none, h3]
        simp [dget, hk]

theorem dget_restoreKey_self (api m : Dict PyVal) (key : String) :
    dget (restoreKey api key m) key = ((dget api key).or (dget m key)) := by
  unfold restoreKey
  cases h : dget api key with
  | none => simp
  | some v => simp [dget_dinsert_self]

theorem dget_restoreKey_ne (api m : Dict PyVal) (key k : String) (h : key ≠ k) :
    dget (restoreKey api key m) k = dget m k := by
  unfold restoreKey
  cases hh : dget api key with
  | none => rfl
  | some v => exact dget_dinsert_ne m key k v h

theorem imeiOf_prepInsertRecord (r : Dict PyVal) :
    imeiOf (prepInsertRecord r) = imeiOf r := by
  unfold prepInsertRecord
  by_cases hst : truthyOpt (dget r "status")
  · simp [hst]
  · simp only [hst, if_false, Bool.false_eq_true]
    unfold imeiOf
    rw [dget_dinsert_ne r "status" "imei" _ (by decide)]

theorem dget_imei_data_status (cleaned : Dict String) (imei status : String) :
    dget (imei_data_of cleaned imei status) "status" = some (.vs status) := rfl

theorem row_status_ne_empty (cleaned : Dict String) : row_status cleaned ≠ "" := by
  unfold row_status
  by_cases h : pyStrip ((dget cleaned "status").getD "") = ""
  · simp [h]
  · simp [h]

theorem addToGroup_statusOk (g : Groups) (imei : String) (rec : Dict PyVal)
    (hg : groupStatusOk g) (hr : ∃ s, dget rec "status" = some (.vs s) ∧ s ≠ "") :
    groupStatusOk (addToGroup g imei rec) := by
  induction g with
  | nil =>
      intro p hp r hrr
      simp [addToGroup] at hp
      subst hp
      simp at hrr
      subst hrr
      exact hr
  | cons q rest ih =>
      intro p hp r hrr
      unfold addToGroup at hp
      by_cases hq : q.1 = imei
      · rw [if_pos hq] at hp
        rcases List.mem_cons.mp hp with rfl | hp
        · rcases List.mem_append.mp hrr with hmem | hmem
          · exact hg q (List.mem_cons_self q rest) r hmem
          · rcases List.mem_singleton.mp hmem with rfl
            exact hr
        · exact hg p (List.mem_cons_of_mem q hp) r hrr
      · rw [if_neg hq] at hp
        rcases List.mem_cons.mp hp with rfl | hp
        · exact hg q (List.mem_cons_self q rest) r hrr
        · exact ih (fun x hx => hg x (List.mem_cons_of_mem q hx)) p hp r hrr

theorem processRow_statusOk (fieldnames : List String) (g : Groups)
    (values : List String) (hg : groupStatusOk g) :
    groupStatusOk (processRow fieldnames g values) := by
  unfold processRow
  by_cases hb : allBlank (readerRow fieldnames values)
  · simpa [hb] using hg
  · simp only [hb, Bool.false_eq_true, if_false]
    by_cases hi : (dget (cleaned_row (readerRow fieldnames values)) "imei").getD "" = ""
    · simpa [hi] using hg
    · simp only [hi, if_false]
      exact addToGroup_statusOk _ _ _ hg
        ⟨row_status (cleaned_row (readerRow fieldnames values)),
         dget_imei_data_status _ _ _, row_status_ne_empty _⟩

theorem foldl_processRow_statusOk (fieldnames : List String) (rows : List (List String))
    (g : Groups) (hg : groupStatusOk g) :
    groupStatusOk (rows.foldl (processRow fieldnames) g) := by
  induction rows generalizing g with
  | nil => exact hg
  | cons v rest ih => exact ih _ (processRow_statusOk fieldnames g v hg)

theorem prepInsertRecord_status_truthy (r : Dict PyVal) :
    truthyOpt (dget (prepInsertRecord r) "status") = true := by
  unfold prepInsertRecord
  by_cases hst : truthyOpt (dget r "status")
  · rw [if_pos hst]
    exact hst
  · simp only [hst, Bool.false_eq_true, if_false]
    rw [dget_dinsert_self]
    decide

theorem insertLoop_statusOk (recs : List (Dict PyVal)) (table t : List (Dict PyVal))
    (ht : ∀ r ∈ table, truthyOpt (dget r "status") = true)
    (h : insertLoop table recs = .ok t) :
    ∀ r ∈ t, truthyOpt (dget r "status") = true := by
  induction recs generalizing table with
  | nil =>
      unfold insertLoop at h
      injection h with h
      subst h
      exact ht
  | cons r rest ih =>
      unfold insertLoop at h
      by_cases hdup : table.any (fun row => imeiOf row == imeiOf (prepInsertRecord r))
      · rw [if_pos hdup] at h
        cases h
      · rw [if_neg hdup] at h
        refine ih (table ++ [prepInsertRecord r]) ?_ h
        intro x hx
        rcases List.mem_append.mp hx with hx | hx
        · exact ht x hx
        · rcases List.mem_singleton.mp hx with rfl
          exact prepInsertRecord_status_truthy r

theorem mem_of_dget {α : Type} (d : Dict α) (k : String) (v : α)
    (h : dget d k = some v) : (k, v) ∈ d := by
  induction d with
  | nil => cases h
  | cons kv rest ih =>
      unfold dget at h
      by_cases hk : kv.1 = k
      · rw [if_pos hk] at h
        injection h with h
        subst hk
        subst h
        exact List.mem_cons_self kv rest
      · rw [if_neg hk] at h
        exact List.mem_cons_of_mem kv (ih h)

theorem mem_dinsert_elim {α : Type} (d : Dict α) (k' : String) (v' : α)
    (k : String) (v : α) (h : (k, v) ∈ dinsert d k' v') :
    (k, v) ∈ d ∨ (k = k' ∧ v = v') := by
  induction d with
  | nil =>
      simp [dinsert] at h
      exact Or.inr h
  | cons kv rest ih =>
      unfold dinsert at h
      by_cases hk : kv.1 = k'
      · rw [if_pos hk] at h
        rcases List.mem_cons.mp h with heq | hmem
        · injection heq with h1 h2
          exact Or.inr ⟨h1.symm ▸ hk.symm ▸ rfl, h2⟩
        · exact Or.inl (List.mem_cons_of_mem kv hmem)
      · rw [if_neg hk] at h
        rcases List.mem_cons.mp h with heq | hmem
        · exact Or.inl (heq ▸ List.mem_cons_self kv rest)
        · rcases ih hmem with hm | hkv
          · exact Or.inl (List.mem_cons_of_mem kv hm)
          · exact Or.inr hkv

theorem mem_foldl_dinsert {α : Type} (l : List (String × α)) (k : String) (v : α) :
    ∀ acc : Dict α, (k, v) ∈ l.foldl (fun a kv => dinsert a kv.1 kv.2) acc →
      (k, v) ∈ acc ∨ (k, v) ∈ l := by
  induction l with
  | nil => exact fun acc h => Or.inl h
  | cons kv rest ih =>
      intro acc h
      rw [List.foldl_cons] at h
      rcases ih _ h with hm | hm
      · rcases mem_dinsert_elim _ _ _ _ _ hm with hm2 | hm2
        · exact Or.inl hm2
        · refine Or.inr (List.mem_cons.mpr (Or.inl ?_))
          rcases hm2 with ⟨rfl, rfl⟩
          rfl
      · exact Or.inr (List.mem_cons_of_mem kv hm)

theorem mem_dictOfPairs {α : Type} (l : List (String × α)) (k : String) (v : α)
    (h : (k, v) ∈ dictOfPairs l) : (k, v) ∈ l := by
  rcases mem_foldl_dinsert l k v [] h with hm | hm
  · cases hm
  · exact hm

theorem val_foldl_clean (row : Dict String) (k v : String) :
    ∀ acc : Dict String,
      (k, v) ∈ row.foldl
        (fun a kv => dinsert a (column_mapping (pyUpper (pyStrip kv.1))) (pyStrip kv.2)) acc →
      (k, v) ∈ acc ∨ ∃ p ∈ row, v = pyStrip p.2 := by
  induction row with
  | nil => exact fun acc h => Or.inl h
  | cons kv rest ih =>
      intro acc h
      rw [List.foldl_cons] at h
      rcases ih _ h with hm | ⟨p, hp, hv⟩
      · rcases mem_dinsert_elim _ _ _ _ _ hm with hm2 | hm2
        · exact Or.inl hm2
        · exact Or.inr ⟨kv, List.mem_cons_self kv rest, hm2.2⟩
      · exact Or.inr ⟨p, List.mem_cons_of_mem kv hp, hv⟩

/-- Every value stored in a cleaned row is the strip of some raw value
of the row it came from. -/
theorem cleaned_row_val (row : Dict String) (k v : String)
    (h : dget (cleaned_row row) k = some v) : ∃ p ∈ row, v = pyStrip p.2 := by
  have hmem := mem_of_dget _ _ _ h
  rcases val_foldl_clean row k v [] hmem with hm | hm
  · cases hm
  · exact hm

/-- A row all of whose raw values strip to blank contributes nothing:
either the all-blank skip fires or the `imei` value is empty. -/
theorem processRow_blank (fieldnames : List String) (g : Groups)
    (values : List String) (h : ∀ v ∈ values, pyStrip v = "") :
    processRow fieldnames g values = g := by
  unfold processRow
  by_cases hb : allBlank (readerRow fieldnames values)
  · simp [hb]
  · have himei : (dget (cleaned_row (readerRow fieldnames values)) "imei").getD "" = "" := by
      cases hx : dget (cleaned_row (readerRow fieldnames values)) "imei" with
      | none => rfl
      | some v =>
          obtain ⟨p, hp, rfl⟩ := cleaned_row_val _ _ _ hx
          have hmem := mem_dictOfPairs _ p.1 p.2 (by simpa using hp)
          have hv2 := (List.of_mem_zip hmem).2
          simp only [Option.getD_some]
          rcases List.mem_append.mp hv2 with hv | hv
          · exact h p.2 hv
          · rw [List.eq_of_mem_replicate hv]
            rfl
    simp [hb, himei]

theorem foldl_blankInsertion (fieldnames : List String) {xs ys : List (List String)}
    (h : BlankInsertion xs ys) (g : Groups) :
    ys.foldl (processRow fieldnames) g = xs.foldl (processRow fieldnames) g := by
  induction h generalizing g with
  | nil => rfl
  | keep r hrec ih => exact ih (processRow fieldnames g r)
  | blank b hb hrec ih =>
      show (b :: _).foldl _ g = _
      rw [List.foldl_cons, processRow_blank fieldnames g b hb]
      exact ih g

theorem append_ne_empty_left (s t : String) (h : s ≠ "") : s ++ t ≠ "" := by
  intro hh
  apply h
  have hlen := congrArg String.length hh
  rw [String.length_append, String.length_empty] at hlen
  have hs : s.length = 0 := by omega
  cases s with
  | mk l =>
      cases l with
      | nil => rfl
      | cons c cs => simp [String.length] at hs

theorem serializeLimited_ne_empty (d : QrInput) (modelosJson : String)
    (totalModelos : Nat) (mensagem : Option String) :
    serializeLimited d modelosJson totalModelos mensagem ≠ "" := by
  unfold serializeLimited
  repeat apply append_ne_empty_left
  decide

/-! ### Claims -/

/-- C1 (counterexample): the claim says an empty or absent local field
never overrides a non-empty external field.  On the row
`IMEI=123, MODELO=` the grouped record carries `modelo = ""`, and
reconciling it against a successful lookup with `modelo = "Alpha"`
yields `modelo = ""`: the blank local value overrides the non-empty
external one, because `{**resposta_api, **dados_csv}` merges by key
presence, not by non-emptiness. -/
theorem C1_counterexample :
    process_csv_stream (some ["IMEI", "MODELO"]) [["123", ""]] =
      .ok ([("123", [c1_localRecord])], ["IMEI", "MODELO"]) ∧
    dget (reconcile c1_localRecord (.ok c1_apiResp)) "modelo" = some (.vs "") ∧
    some (PyVal.vs "") ≠ some (PyVal.vs "Alpha") := by
  refine ⟨rfl, rfl, ?_⟩
  intro hcontra
  injection hcontra with h1
  injection h1 with h2
  exact absurd h2 (by decide)

/-- C1 (amended): on a successful lookup the merged record gives each
field the locally supplied value whenever the local record contains the
key — even when that value is empty or `None` — and the external value
only for keys the local record lacks; except the audit keys
`dados_brutos` and `resposta_completa`, where a present external value
wins. -/
theorem C1_merge_by_key_presence (dcsv resp : Dict PyVal)
    (hnd : (dcsv.map Prod.fst).Nodup)
    (hne : resp.isEmpty = false) (herr : dmem resp "erro" = false) :
    (∀ k, k ≠ "dados_brutos" → k ≠ "resposta_completa" →
       dget (reconcile dcsv (.ok resp)) k = ((dget dcsv k).or (dget resp k))) ∧
    (∀ k, (k = "dados_brutos" ∨ k = "resposta_completa") →
       dget (reconcile dcsv (.ok resp)) k = ((dget resp k).or (dget dcsv k))) := by
  have hmain : reconcile dcsv (.ok resp) =
      (let m3 := restoreKey resp "resposta_completa"
                   (restoreKey resp "dados_brutos" (dmerge resp dcsv))
       if truthyOpt (dget dcsv "status") then
         dinsert m3 "status" ((dget dcsv "status").getD .vnone)
       else m3) := by
    simp [reconcile, hne, herr]
  have hmerge : ∀ k, dget (dmerge resp dcsv) k = ((dget dcsv k).or (dget resp k)) := by
    intro k
    rw [dget_dmerge]
    unfold dgetLast
    rw [show dget dcsv.reverse k = dget dcsv k from dgetLast_eq_dget dcsv hnd k]
  have hm3 : ∀ k, k ≠ "dados_brutos" → k ≠ "resposta_completa" →
      dget (restoreKey resp "resposta_completa"
              (restoreKey resp "dados_brutos" (dmerge resp dcsv))) k =
        ((dget dcsv k).or (dget resp k)) := by
    intro k hdb hrc
    rw [dget_restoreKey_ne _ _ _ _ (fun hh => hrc hh.symm),
        dget_restoreKey_ne _ _ _ _ (fun hh => hdb hh.symm), hmerge]
  rw [hmain]
  constructor
  · intro k hdb hrc
    by_cases hst : truthyOpt (dget dcsv "status")
    · simp only [hst, if_true]
      by_cases hk : k = "status"
      · subst hk
        rw [dget_dinsert_self]
        cases hs : dget dcsv "status" with
        | none => rw [hs] at hst; simp [truthyOpt] at hst
        | some w => simp [hs]
      · rw [dget_dinsert_ne _ _ _ _ (fun hh => hk hh.symm)]
        exact hm3 k hdb hrc
    · simp only [hst, if_false]
      exact hm3 k hdb hrc
  · intro k hk
    have hstep : ∀ m : Dict PyVal,
        dget (if truthyOpt (dget dcsv "status") then
                dinsert m "status" ((dget dcsv "status").getD .vnone) else m) k = dget m k := by
      intro m
      have hks : "status" ≠ k := by
        rcases hk with rfl | rfl <;> decide
      by_cases hst : truthyOpt (dget dcsv "status")
      · simp only [hst, if_true]
        exact dget_dinsert_ne m "status" k _ hks
      · simp [hst]
    rw [hstep]
    rcases hk with rfl | rfl
    · rw [dget_restoreKey_ne _ _ _ _ (by decide), dget_restoreKey_self, hmerge]
      cases dget resp "dados_brutos" <;> simp
    · rw [dget_restoreKey_self, dget_restoreKey_ne _ _ _ _ (by decide), hmerge]
      cases dget resp "resposta_completa" <;> simp

/-- C1 (witness): the amended merge rule evaluated on the concrete
blank-model record against a lookup carrying `modelo = "Alpha"`. -/
theorem C1_merge_by_key_presence_witness :
    dget (reconcile c1_localRecord (.ok c1_apiResp)) "modelo" =
      ((dget c1_localRecord "modelo").or (dget c1_apiResp "modelo")) ∧
    dget (reconcile c1_localRecord (.ok c1_apiResp)) "dados_brutos" =
      ((dget c1_apiResp "dados_brutos").or (dget c1_localRecord "dados_brutos")) :=
  ⟨(C1_merge_by_key_presence c1_localRecord c1_apiResp (by decide) rfl rfl).1
     "modelo" (by decide) (by decide),
   (C1_merge_by_key_presence c1_localRecord c1_apiResp (by decide) rfl rfl).2
     "dados_brutos" (Or.inl rfl)⟩

/-- C2 (counterexample): the claim says each record is inserted
individually, a failure is collected without preventing the rest, and
with two records sharing an id exactly the first insertion succeeds.
On two data-carrying items with the same `imei = 123`, `create_cluster`
instead returns the propagated duplicate-key exception and the
transaction rollback leaves the cluster table with ZERO rows, while the
pre-committed master row survives with its count at 0. -/
theorem C2_counterexample :
    create_cluster [] "c1" "N" "D" "T" (fun _ => [])
      [.dict [("imei", .vs "123"), ("modelo", .vs "A")],
       .dict [("imei", .vs "123"), ("modelo", .vs "B")]] =
      (.error (.duplicateKey "123"), ([⟨"c1", "N", "D", 0⟩], [])) ∧
    (∀ m : MasterRow,
       (create_cluster [] "c1" "N" "D" "T" (fun _ => [])
         [.dict [("imei", .vs "123"), ("modelo", .vs "A")],
          .dict [("imei", .vs "123"), ("modelo", .vs "B")]]).1 ≠ .ok m) := by
  refine ⟨rfl, ?_⟩
  intro m hcontra
  rw [show (create_cluster [] "c1" "N" "D" "T" (fun _ => [])
      [.dict [("imei", .vs "123"), ("modelo", .vs "A")],
       .dict [("imei", .vs "123"), ("modelo", .vs "B")]]).1 =
      Except.error (DbError.duplicateKey "123") from rfl] at hcontra
  cases hcontra

/-- C2 (amended): insertion is per-record inside a single transaction;
the first failing record aborts the remaining insertions, rolls the
whole batch back (no row of it remains) and propagates the exception,
while the pre-committed cluster metadata row stays at count 0; in
particular two records sharing an `imei` make the second insertion
raise `DuplicateKeyError`. -/
theorem C2_insert_aborts_on_first_failure (masters0 : List MasterRow)
    (cid nome desc now : String) (lookup : String → Dict PyVal)
    (imeis : List ImeiItem) (e : DbError)
    (h : insertLoop [] (imeis.filterMap (prepareItem lookup now)) = .error e) :
    create_cluster masters0 cid nome desc now lookup imeis =
      (.error e, (masters0 ++ [⟨cid, nome, desc, 0⟩], [])) ∧
    (∀ r1 r2 : Dict PyVal, imeiOf r1 = imeiOf r2 →
       insertLoop [] [r1, r2] = .error (.duplicateKey ((imeiOf r2).getD ""))) := by
  constructor
  · simp [create_cluster, h]
  · intro r1 r2 hie
    show insertLoop [] [r1, r2] = _
    unfold insertLoop
    simp only [List.any_nil, Bool.false_eq_true, if_false]
    unfold insertLoop
    simp [List.any_cons, List.any_nil, imeiOf_prepInsertRecord, hie]

/-- C2 (witness): the amended behaviour evaluated on the concrete
duplicate batch. -/
theorem C2_insert_aborts_on_first_failure_witness :
    create_cluster [] "c2" "N" "D" "T" (fun _ => [])
      [.dict [("imei", .vs "123"), ("modelo", .vs "A")],
       .dict [("imei", .vs "123"), ("modelo", .vs "B")]] =
      (.error (.duplicateKey "123"), ([⟨"c2", "N", "D", 0⟩], [])) ∧
    insertLoop [] [[("imei", PyVal.vs "5")], [("imei", PyVal.vs "5")]] =
      .error (.duplicateKey "5") :=
  ⟨(C2_insert_aborts_on_first_failure [] "c2" "N" "D" "T" (fun _ => [])
      [.dict [("imei", .vs "123"), ("modelo", .vs "A")],
       .dict [("imei", .vs "123"), ("modelo", .vs "B")]]
      (.duplicateKey "123") rfl).1,
   (C2_insert_aborts_on_first_failure [] "c2" "N" "D" "T" (fun _ => [])
      [.dict [("imei", .vs "123"), ("modelo", .vs "A")],
       .dict [("imei", .vs "123"), ("modelo", .vs "B")]]
      (.duplicateKey "123") rfl).2
     [("imei", PyVal.vs "5")] [("imei", PyVal.vs "5")] rfl⟩

/-- C3 (counterexample): the claim says the merged record's audit field
carries, under two distinct sub-keys, enough to reconstruct both the
local and the external side.  Two local records that differ only in
their raw audit payload (`extra = a` versus `extra = b`) reconcile to
the SAME merged record when the lookup succeeds, because the local
`dados_brutos` is overwritten by the external one; so the local raw
fields cannot be reconstructed.  The external payload itself is indeed
kept verbatim. -/
theorem C3_counterexample :
    reconcile c3_local_a (.ok c3_resp) = reconcile c3_local_b (.ok c3_resp) ∧
    c3_extraOf c3_local_a = some "a" ∧ c3_extraOf c3_local_b = some "b" ∧
    (some "a" : Option String) ≠ some "b" ∧
    dget (reconcile c3_local_a (.ok c3_resp)) "dados_brutos" =
      some (.vdict [("Modelo", .vs "M")]) :=
  ⟨rfl, rfl, rfl, by decide, rfl⟩

/-- C3 (amended): on a successful lookup the audit keys `dados_brutos`
and `resposta_completa` hold the external payload verbatim whenever the
response supplies them — never overwritten by local data — but both
audit sub-keys are external: the locally supplied raw row previously
stored under `dados_brutos` is replaced, so the merged record keeps no
local raw audit payload. -/
theorem C3_audit_keys_are_external (dcsv resp : Dict PyVal)
    (hne : resp.isEmpty = false) (herr : dmem resp "erro" = false) :
    (∀ v, dget resp "dados_brutos" = some v →
       dget (reconcile dcsv (.ok resp)) "dados_brutos" = some v) ∧
    (∀ v, dget resp "resposta_completa" = some v →
       dget (reconcile dcsv (.ok resp)) "resposta_completa" = some v) := by
  have hmain : reconcile dcsv (.ok resp) =
      (let m3 := restoreKey resp "resposta_completa"
                   (restoreKey resp "dados_brutos" (dmerge resp dcsv))
       if truthyOpt (dget dcsv "status") then
         dinsert m3 "status" ((dget dcsv "status").getD .vnone)
       else m3) := by
    simp [reconcile, hne, herr]
  rw [hmain]
  have hstep : ∀ (m : Dict PyVal) (k : String), "status" ≠ k →
      dget (if truthyOpt (dget dcsv "status") then
              dinsert m "status" ((dget dcsv "status").getD .vnone) else m) k = dget m k := by
    intro m k hks
    by_cases hst : truthyOpt (dget dcsv "status")
    · simp only [hst, if_true]
      exact dget_dinsert_ne m "status" k _ hks
    · simp [hst]
  constructor
  · intro v hv
    rw [hstep _ _ (by decide), dget_restoreKey_ne _ _ _ _ (by decide),
        dget_restoreKey_self, hv]
    rfl
  · intro v hv
    rw [hstep _ _ (by decide), dget_restoreKey_self, hv]
    rfl

/-- C3 (witness): the amended audit rule at the concrete response. -/
theorem C3_audit_keys_are_external_witness :
    dget (reconcile c3_local_a (.ok c3_resp)) "dados_brutos" =
      some (.vdict [("Modelo", .vs "M")]) ∧
    dget (reconcile c3_local_a (.ok c3_resp)) "resposta_completa" =
      some (.vdict [("data", .vlist [])]) :=
  ⟨(C3_audit_keys_are_external c3_local_a c3_resp rfl rfl).1 _ rfl,
   (C3_audit_keys_are_external c3_local_a c3_resp rfl rfl).2 _ rfl⟩

/-- C4: `status` never null or empty in any stored or grouped record —
(1) every record a successful grouping run produces carries a non-empty
string status, (2) a row whose mapped status strips to blank gets the
default `'DESCONHECIDO'` (the source constant the spec renders as
`"UNKNOWN"`), (3) every row a successful insert pass commits has a
truthy status, and (4) a record reaching the insert guard without a
truthy status is stored with `'DESCONHECIDO'`. -/
theorem C4_status_never_empty :
    (∀ (fieldnames? : Option (List String)) (rows : List (List String))
       (groups : Groups) (fns : List String),
       process_csv_stream fieldnames? rows = .ok (groups, fns) →
       groupStatusOk groups) ∧
    (∀ cleaned : Dict String, pyStrip ((dget cleaned "status").getD "") = "" →
       row_status cleaned = "DESCONHECIDO") ∧
    (∀ (recs t : List (Dict PyVal)), insertLoop [] recs = .ok t →
       ∀ r ∈ t, truthyOpt (dget r "status") = true) ∧
    (∀ r : Dict PyVal, truthyOpt (dget r "status") = false →
       dget (prepInsertRecord r) "status" = some (.vs "DESCONHECIDO")) := by
  refine ⟨?_, ?_, ?_, ?_⟩
  · intro fieldnames? rows groups fns h
    unfold process_csv_stream at h
    match fieldnames? with
    | none => cases h
    | some raw =>
        simp only at h
        by_cases h1 : (raw.map (fun n => pyUpper (pyStrip n))).isEmpty
        · rw [if_pos h1] at h; cases h
        · rw [if_neg h1] at h
          by_cases h2 : !(raw.map (fun n => pyUpper (pyStrip n))).contains "IMEI"
          · rw [if_pos h2] at h; cases h
          · rw [if_neg h2] at h
            by_cases h3 : (rows.foldl (processRow raw) []).isEmpty
            · rw [if_pos h3] at h; cases h
            · rw [if_neg h3] at h
              injection h with h
              injection h with hg hf
              subst hg
              exact foldl_processRow_statusOk raw rows []
                (fun p hp => absurd hp (List.not_mem_nil p))
  · intro cleaned h
    unfold row_status
    simp [h]
  · intro recs t h
    exact insertLoop_statusOk recs [] t (fun r hr => absurd hr (List.not_mem_nil r)) h
  · intro r h
    unfold prepInsertRecord
    rw [if_neg (by simp [h])]
    exact dget_dinsert_self r "status" (.vs "DESCONHECIDO")

/-- C4 (witness): the status invariant evaluated on a blank-status row,
a one-record insert pass, and a status-less record at the insert
guard. -/
theorem C4_status_never_empty_witness :
    groupStatusOk [("7", [imei_data_of [("imei", "7"), ("status", "")] "7" "DESCONHECIDO"])] ∧
    row_status [("status", "")] = "DESCONHECIDO" ∧
    (∀ r ∈ [[("imei", PyVal.vs "5"), ("status", PyVal.vs "OK")]],
       truthyOpt (dget r "status") = true) ∧
    dget (prepInsertRecord []) "status" = some (.vs "DESCONHECIDO") :=
  ⟨C4_status_never_empty.1 (some ["IMEI", "STATUS"]) [["7", ""]] _ ["IMEI", "STATUS"] rfl,
   C4_status_never_empty.2.1 [("status", "")] rfl,
   C4_status_never_empty.2.2.1 [[("imei", PyVal.vs "5"), ("status", PyVal.vs "OK")]]
     [[("imei", PyVal.vs "5"), ("status", PyVal.vs "OK")]] rfl,
   C4_status_never_empty.2.2.2 [] rfl⟩

/-- C5: a lookup fault never propagates out of reconciliation — (1) an
exception while contacting the collaborator yields the local record
plus an `erro_processamento` annotation, all local fields preserved;
(2) an explicit `erro` marker in the response yields the local record
plus an `erro_consulta` annotation, all local fields preserved; and
(3) `consultar_imei` itself converts any raised exception into an
`erro`-marker dict rather than letting it escape. -/
theorem C5_lookup_fault_degrades :
    (∀ (d : Dict PyVal) (msg : String),
       dget (reconcile d (.error msg)) "erro_processamento" = some (.vs msg) ∧
       ∀ k, k ≠ "erro_processamento" → dget (reconcile d (.error msg)) k = dget d k) ∧
    (∀ (d resp : Dict PyVal), dmem resp "erro" = true →
       dget (reconcile d (.ok resp)) "erro_consulta" =
         some ((dget resp "erro").getD .vnone) ∧
       ∀ k, k ≠ "erro_consulta" → dget (reconcile d (.ok resp)) k = dget d k) ∧
    (∀ (imei e : String), dmem (consultar_imei imei (.error e)) "erro" = true) := by
  refine ⟨?_, ?_, ?_⟩
  · intro d msg
    refine ⟨dget_dinsert_self d "erro_processamento" (.vs msg), ?_⟩
    intro k hk
    exact dget_dinsert_ne d "erro_processamento" k _ (fun hh => hk hh.symm)
  · intro d resp hmem
    have hne : resp.isEmpty = false := by
      cases resp with
      | nil => simp [dmem] at hmem
      | cons a l => rfl
    have hred : reconcile d (.ok resp) =
        dinsert d "erro_consulta" ((dget resp "erro").getD .vnone) := by
      simp [reconcile, hne, hmem]
    rw [hred]
    refine ⟨dget_dinsert_self .., ?_⟩
    intro k hk
    exact dget_dinsert_ne d "erro_consulta" k _ (fun hh => hk hh.symm)
  · intro imei e
    simp [consultar_imei, dmem]

/-- C5 (witness): the degrade-on-fault behaviour at a concrete record,
a concrete raised exception and a concrete error-marker response. -/
theorem C5_lookup_fault_degrades_witness :
    dget (reconcile [("imei", PyVal.vs "9")] (.error "boom")) "erro_processamento" =
      some (.vs "boom") ∧
    dget (reconcile [("imei", PyVal.vs "9")] (.error "boom")) "imei" = some (.vs "9") ∧
    dget (reconcile [("imei", PyVal.vs "9")]
        (.ok [("imei", PyVal.vs "9"), ("erro", PyVal.vs "x")])) "erro_consulta" =
      some (.vs "x") ∧
    dmem (consultar_imei "9" (.error "down")) "erro" = true :=
  ⟨(C5_lookup_fault_degrades.1 [("imei", PyVal.vs "9")] "boom").1,
   (C5_lookup_fault_degrades.1 [("imei", PyVal.vs "9")] "boom").2 "imei" (by decide),
   (C5_lookup_fault_degrades.2.1 [("imei", PyVal.vs "9")]
      [("imei", PyVal.vs "9"), ("erro", PyVal.vs "x")] rfl).1,
   C5_lookup_fault_degrades.2.2 "9" "down"⟩

/-- C6: a non-empty header row none of whose names normalizes (trim +
upper-case) to `IMEI` makes `process_csv_stream` fail with the
missing-required-column error, before any grouping happens (the result
carries no groups).  A fully empty header row instead raises the
empty-headers error — also before any grouping. -/
theorem C6_missing_imei_column (raw : List String) (rows : List (List String))
    (hne : raw ≠ [])
    (h : "IMEI" ∉ raw.map (fun n => pyUpper (pyStrip n))) :
    process_csv_stream (some raw) rows =
      .error (CsvError.missingImei (raw.map (fun n => pyUpper (pyStrip n)))) := by
  have h1 : (raw.map (fun n => pyUpper (pyStrip n))).isEmpty = false := by
    cases raw with
    | nil => exact absurd rfl hne
    | cons a l => rfl
  have h2 : (raw.map (fun n => pyUpper (pyStrip n))).contains "IMEI" = false := by
    simpa using h
  simp only [process_csv_stream]
  rw [h1, h2]
  simp

/-- C6 (witness): a stream with headers `MODELO` only. -/
theorem C6_missing_imei_column_witness :
    (["MODELO"] ≠ ([] : List String)) ∧
    ("IMEI" ∉ ["MODELO"].map (fun n => pyUpper (pyStrip n))) ∧
    process_csv_stream (some ["MODELO"]) [["x"]] =
      .error (CsvError.missingImei ["MODELO"]) :=
  ⟨by decide, by decide, C6_missing_imei_column ["MODELO"] [["x"]] (by decide) (by decide)⟩

/-- C7: all-blank rows are invisible to grouping — (1) a row whose
values all strip to blank leaves the grouping state unchanged, and
(2) inserting any number of such rows anywhere into the stream leaves
the entire `process_csv_stream` result unchanged (same keys, same rows
per key, same order, same error behaviour). -/
theorem C7_blank_rows_invisible :
    (∀ (fieldnames : List String) (g : Groups) (values : List String),
       (∀ v ∈ values, pyStrip v = "") → processRow fieldnames g values = g) ∧
    (∀ (raw : List String) (xs ys : List (List String)), BlankInsertion xs ys →
       process_csv_stream (some raw) ys = process_csv_stream (some raw) xs) := by
  constructor
  · exact processRow_blank
  · intro raw xs ys h
    simp only [process_csv_stream]
    rw [foldl_blankInsertion raw h []]

/-- C7 (witness): a whitespace-only row is skipped, and inserting a
blank row ahead of a data row does not change the stream result. -/
theorem C7_blank_rows_invisible_witness :
    processRow ["IMEI"] [] [" "] = [] ∧
    process_csv_stream (some ["IMEI"]) [[""], ["1"]] =
      process_csv_stream (some ["IMEI"]) [["1"]] :=
  ⟨C7_blank_rows_invisible.1 ["IMEI"] [] [" "] (by decide),
   C7_blank_rows_invisible.2 ["IMEI"] [["1"]] [[""], ["1"]]
     (BlankInsertion.blank [""] (by decide)
        (BlankInsertion.keep ["1"] BlankInsertion.nil))⟩

/-- C8: the encoder degrades and never fails — (1) when the full
serialization exceeds the budget the output is the re-serialization
with per-model sample ids stripped and the truncation notice appended,
(2) whenever that detail-stripped form fits the budget the output fits
the budget, (3) the output is never empty even when the stripped form
still overflows, and (4) the blanket handler turns any internal error
into a non-empty fallback payload. -/
theorem C8_encoder_degrade_and_return (budget : Nat) (data : QrInput) :
    ((serializeLimited data (jsonModelosFull (capModelos (buildModelos data.imeis)))
        (capModelos (buildModelos data.imeis)).length none).utf8ByteSize > budget →
      generate_qr_payload_budget budget data =
        serializeLimited data (jsonModelosStripped (capModelos (buildModelos data.imeis)))
          (capModelos (buildModelos data.imeis)).length (some TRUNCATION_NOTICE)) ∧
    ((serializeLimited data (jsonModelosStripped (capModelos (buildModelos data.imeis)))
        (capModelos (buildModelos data.imeis)).length (some TRUNCATION_NOTICE)).utf8ByteSize ≤
        budget →
      (generate_qr_payload_budget budget data).utf8ByteSize ≤ budget) ∧
    generate_qr_payload_budget budget data ≠ "" ∧
    (∀ e : String, generate_qr_code_payload (.error e) ≠ "") := by
  by_cases hov : (serializeLimited data (jsonModelosFull (capModelos (buildModelos data.imeis)))
      (capModelos (buildModelos data.imeis)).length none).utf8ByteSize > budget
  · have hout : generate_qr_payload_budget budget data =
        serializeLimited data (jsonModelosStripped (capModelos (buildModelos data.imeis)))
          (capModelos (buildModelos data.imeis)).length (some TRUNCATION_NOTICE) := by
      unfold generate_qr_payload_budget
      rw [if_pos hov]
    refine ⟨fun _ => hout, ?_, ?_, ?_⟩
    · intro hfit
      rw [hout]
      exact hfit
    · rw [hout]
      exact serializeLimited_ne_empty _ _ _ _
    · intro e
      exact append_ne_empty_left _ _ (by decide)
  · have hout : generate_qr_payload_budget budget data =
        serializeLimited data (jsonModelosFull (capModelos (buildModelos data.imeis)))
          (capModelos (buildModelos data.imeis)).length none := by
      unfold generate_qr_payload_budget
      rw [if_neg hov]
    refine ⟨fun hcontra => absurd hcontra hov, ?_, ?_, ?_⟩
    · intro _
      rw [hout]
      omega
    · rw [hout]
      exact serializeLimited_ne_empty _ _ _ _
    · intro e
      exact append_ne_empty_left _ _ (by decide)

set_option maxRecDepth 4000 in
/-- C8 (witness): on the ten-device two-model summary the full form
(329 bytes) overflows a 200-byte budget, the stripped form (196 bytes)
fits it, and the encoder returns exactly the degraded payload. -/
theorem C8_encoder_degrade_and_return_witness :
    ((serializeLimited c8data (jsonModelosFull (capModelos (buildModelos c8data.imeis)))
        (capModelos (buildModelos c8data.imeis)).length none).utf8ByteSize > 200) ∧
    generate_qr_payload_budget 200 c8data =
      serializeLimited c8data (jsonModelosStripped (capModelos (buildModelos c8data.imeis)))
        (capModelos (buildModelos c8data.imeis)).length (some TRUNCATION_NOTICE) ∧
    ((serializeLimited c8data (jsonModelosStripped (capModelos (buildModelos c8data.imeis)))
        (capModelos (buildModelos c8data.imeis)).length
        (some TRUNCATION_NOTICE)).utf8ByteSize ≤ 200) ∧
    (generate_qr_payload_budget 200 c8data).utf8ByteSize ≤ 200 ∧
    generate_qr_payload_budget 200 c8data ≠ "" ∧
    generate_qr_code_payload (.error "boom") ≠ "" :=
  ⟨by decide,
   (C8_encoder_degrade_and_return 200 c8data).1 (by decide),
   by decide,
   (C8_encoder_degrade_and_return 200 c8data).2.1 (by decide),
   (C8_encoder_degrade_and_return 200 c8data).2.2.1,
   (C8_encoder_degrade_and_return 200 c8data).2.2.2 "boom"⟩

/-- C9 (counterexample): the claim says duplicate post-normalization
columns survive as distinct positional raw columns, so no value is
lost.  With headers `IMEI, OBS, OBSERVACAO` (both aliases normalize to
`observacao`) the rows `1,a,b` and `1,z,b` produce identical stream
results: the value of the earlier duplicate column is lost. -/
theorem C9_counterexample :
    process_csv_stream (some ["IMEI", "OBS", "OBSERVACAO"]) [["1", "a", "b"]] =
      process_csv_stream (some ["IMEI", "OBS", "OBSERVACAO"]) [["1", "z", "b"]] ∧
    ["1", "a", "b"] ≠ ["1", "z", "b"] := ⟨rfl, by decide⟩

/-- C9 (amended): when several raw headers normalize to the same
canonical key, the cleaned row keeps only the LAST column's value for
that key — reading any key of the cleaned row returns the last
occurrence among the normalized raw pairs; earlier duplicates are
overwritten, not preserved positionally. -/
theorem C9_last_duplicate_wins (row : Dict String) (k : String) :
    dget (cleaned_row row) k =
      dgetLast (row.map (fun kv => (column_mapping (pyUpper (pyStrip kv.1)), pyStrip kv.2))) k := by
  have heq : cleaned_row row =
      dictOfPairs (row.map (fun kv => (column_mapping (pyUpper (pyStrip kv.1)), pyStrip kv.2))) := by
    unfold cleaned_row dictOfPairs dmerge
    rw [List.foldl_map]
  rw [heq]
  unfold dictOfPairs
  rw [dget_dmerge]
  simp [dget]

/-- C10: cluster creation is not atomic with record insertion — the
metadata row is committed (with `total_imeis` at its column default 0)
before any record is inserted, so when the insert transaction fails the
exception propagates while the master table still holds the new row at
count 0 and the cluster table holds nothing. -/
theorem C10_metadata_commits_before_inserts (masters0 : List MasterRow)
    (cid nome desc now : String) (lookup : String → Dict PyVal)
    (imeis : List ImeiItem) (e : DbError)
    (h : insertLoop [] (imeis.filterMap (prepareItem lookup now)) = .error e) :
    (create_cluster masters0 cid nome desc now lookup imeis).1 = .error e ∧
    (create_cluster masters0 cid nome desc now lookup imeis).2.1 =
      masters0 ++ [⟨cid, nome, desc, 0⟩] ∧
    (create_cluster masters0 cid nome desc now lookup imeis).2.2 = [] ∧
    (⟨cid, nome, desc, 0⟩ : MasterRow).total_imeis = 0 := by
  refine ⟨?_, ?_, ?_, rfl⟩ <;> simp [create_cluster, h]

/-- C10 (witness): the non-atomic behaviour on a concrete duplicate
batch under one pre-existing cluster row. -/
theorem C10_metadata_commits_before_inserts_witness :
    (create_cluster [⟨"old", "O", "", 3⟩] "w10" "N" "D" "T" (fun _ => [])
      [.dict [("imei", .vs "77"), ("modelo", .vs "A")],
       .dict [("imei", .vs "77"), ("modelo", .vs "B")]]).1 =
      .error (.duplicateKey "77") ∧
    (create_cluster [⟨"old", "O", "", 3⟩] "w10" "N" "D" "T" (fun _ => [])
      [.dict [("imei", .vs "77"), ("modelo", .vs "A")],
       .dict [("imei", .vs "77"), ("modelo", .vs "B")]]).2.1 =
      [⟨"old", "O", "", 3⟩, ⟨"w10", "N", "D", 0⟩] ∧
    (create_cluster [⟨"old", "O", "", 3⟩] "w10" "N" "D" "T" (fun _ => [])
      [.dict [("imei", .vs "77"), ("modelo", .vs "A")],
       .dict [("imei", .vs "77"), ("modelo", .vs "B")]]).2.2 = [] :=
  ⟨(C10_metadata_commits_before_inserts [⟨"old", "O", "", 3⟩] "w10" "N" "D" "T"
      (fun _ => [])
      [.dict [("imei", .vs "77"), ("modelo", .vs "A")],
       .dict [("imei", .vs "77"), ("modelo", .vs "B")]]
      (.duplicateKey "77") rfl).1,
   (C10_metadata_commits_before_inserts [⟨"old", "O", "", 3⟩] "w10" "N" "D" "T"
      (fun _ => [])
      [.dict [("imei", .vs "77"), ("modelo", .vs "A")],
       .dict [("imei", .vs "77"), ("modelo", .vs "B")]]
      (.duplicateKey "77") rfl).2.1,
   (C10_metadata_commits_before_inserts [⟨"old", "O", "", 3⟩] "w10" "N" "D" "T"
      (fun _ => [])
      [.dict [("imei", .vs "77"), ("modelo", .vs "A")],
       .dict [("imei", .vs "77"), ("modelo", .vs "B")]]
      (.duplicateKey "77") rfl).2.2.1⟩

end Warehouse
